import Mathlib

/-!
# periodic_task.c : the periodic speaker task

A shallow embedding of `src/periodic_task.c` (an RTAI kernel module that
toggles bit `0x02` of port `0x61` once per timer period) and the proofs of
its specification.

* The port space is a function from port address to the byte stored there.
* Every call that leaves the module (`inb`, `outb`, the RTAI scheduler calls,
  `printk`) is appended to a log, oldest call first.
* `unsigned char` values are naturals reduced modulo `256`; the C `int`
  operand `~SOUND_MASK` is the 32-bit two's-complement pattern.
* `RTIME` is a signed 64-bit integer; sums are wrapped to that range.
-/

namespace PeriodicTask

/-! ## Constants (lines 28-31) -/

/-- Timer period in nanoseconds: `static RTIME sound_period_ns = 100000000`. -/
def sound_period_ns : Int := 100000000

/-- Address of the speaker port: `#define SOUND_PORT 0x61`. -/
def SOUND_PORT : Nat := 0x61

/-- Bit to set or clear: `#define SOUND_MASK 0x02`. -/
def SOUND_MASK : Nat := 0x02

/-! ## Machine arithmetic -/

/-- Bitwise complement of a C `int`, on its 32-bit two's-complement pattern. -/
def int_not (x : Nat) : Nat := 2 ^ 32 - 1 - x % 2 ^ 32

/-- Conversion of an `int` bit pattern to `unsigned char`. -/
def to_uchar (x : Nat) : Nat := x % 256

/-- Logical negation `!x` of C, yielding `0` or `1`. -/
def c_not (x : Nat) : Nat := if x = 0 then 1 else 0

/-- Conversion to `RTIME` (signed 64-bit), wrapping. -/
def to_rtime (x : Int) : Int := (x + 2 ^ 63) % 2 ^ 64 - 2 ^ 63

/-- Conversion to `int` (signed 32-bit), as in the casts of the `printk` call. -/
def to_int (x : Int) : Int := (x + 2 ^ 31) % 2 ^ 32 - 2 ^ 31

/-! ## External calls and the world they act on -/

/-- Task entry points that can be handed to `rt_task_init`. -/
inductive TaskEntry where
  | sound_function
  deriving DecidableEq, Repr

/-- One call leaving the module, with the argument values passed. -/
inductive Call where
  | rt_set_periodic_mode
  | nano2count (ns : Int)
  | start_rt_timer (period : Int)
  | printk (requested got : Int)
  | rt_task_init (entry : TaskEntry) (data stack_size priority uses_fpu signal : Int)
  | rt_get_time
  | rt_task_make_periodic (start_time period : Int)
  | rt_task_wait_period
  | rt_task_delete
  | inb (port : Nat)
  | outb (value port : Nat)
  deriving DecidableEq, Repr

/-- The machine as the module sees it: the port space, whether the scheduler
still runs `sound_task`, and the log of external calls (oldest first). -/
structure World where
  ports : Nat → Nat
  runnable : Bool
  log : List Call

/-- Byte input from a port: returns an `unsigned char`. -/
def inb (port : Nat) (w : World) : Nat × World :=
  (w.ports port % 256, { w with log := w.log ++ [Call.inb port] })

/-- Byte output to a port: the value parameter is an `unsigned char`. -/
def outb (value port : Nat) (w : World) : World :=
  { w with
    ports := fun p => if p = port then to_uchar value else w.ports p
    log := w.log ++ [Call.outb (to_uchar value) port] }

/-- The call `rt_task_wait_period()`: suspends the caller until its next period. -/
def rt_task_wait_period (w : World) : World :=
  { w with log := w.log ++ [Call.rt_task_wait_period] }

/-- Modelled from the spec: `rt_task_delete` belongs to RTAI and is not part
of the sources. Sections 4.4 and 6 of the spec say that destroying the task
blocks until the task is no longer runnable, so the call is logged and the
task is not runnable afterwards. -/
def rt_task_delete (w : World) : World :=
  { w with runnable := false, log := w.log ++ [Call.rt_task_delete] }

/-- Whether the sound-mask bit of the speaker port is set. -/
def maskSet (w : World) : Bool := w.ports SOUND_PORT &&& SOUND_MASK != 0

/-! ## sound_function (lines 33-63) -/

/-- Local variables of `sound_function`. -/
structure Locals where
  sound_byte : Nat
  toggle : Nat

/-- Line 42: `sound_byte = inb(SOUND_PORT);`. -/
def loop_read (st : Locals × World) : Locals × World :=
  let r := inb SOUND_PORT st.2
  ({ st.1 with sound_byte := r.1 }, r.2)

/-- Lines 43-51: the `if (toggle)` statement, the `outb` and `toggle = ! toggle`. -/
def loop_write (st : Locals × World) : Locals × World :=
  let sound_byte :=
    if st.1.toggle ≠ 0 then to_uchar (st.1.sound_byte ||| SOUND_MASK)
    else to_uchar (st.1.sound_byte &&& int_not SOUND_MASK)
  let w := outb sound_byte SOUND_PORT st.2
  ({ sound_byte := sound_byte, toggle := c_not st.1.toggle }, w)

/-- Line 58: `rt_task_wait_period();`. -/
def loop_wait (st : Locals × World) : Locals × World :=
  (st.1, rt_task_wait_period st.2)

/-- One iteration of the `while (1)` loop of `sound_function`. -/
def loop_body (st : Locals × World) : Locals × World :=
  loop_wait (loop_write (loop_read st))

/-- State on entry to `sound_function`: `toggle = 0`; `sound_byte` is not
initialised, `garbage` stands for whatever the stack holds. -/
def sound_function_entry (garbage : Nat) (w : World) : Locals × World :=
  ({ sound_byte := to_uchar garbage, toggle := 0 }, w)

/-- State of `sound_function` after `k` completed loop iterations. The loop
never exits, so `k` counts the periods that have elapsed. -/
def sound_function : Nat → Nat → World → Locals × World
  | 0, garbage, w => sound_function_entry garbage w
  | k + 1, garbage, w => loop_body (sound_function k garbage w)

/-! ## cleanup_module (lines 125-133) -/

/-- The body of `cleanup_module`: delete the task, then
`outb(inb(SOUND_PORT) & ~SOUND_MASK, SOUND_PORT)`. -/
def cleanup_module (w : World) : World :=
  let w1 := rt_task_delete w
  let r := inb SOUND_PORT w1
  outb (r.1 &&& int_not SOUND_MASK) SOUND_PORT r.2

/-- A world used for concrete evaluations: every port reads `0xFF`. -/
def world0 : World := { ports := fun _ => 0xFF, runnable := true, log := [] }

/-- A world whose ports read `0x31`, a byte with the sound-mask bit clear. -/
def world1 : World := { ports := fun _ => 0x31, runnable := true, log := [] }

/-! ## The task and cleanup_module running side by side -/

/-- Who takes the next step: the periodic task or `cleanup_module`. -/
inductive Actor where
  | task
  | cleanup
  deriving DecidableEq, Repr

/-- Position of `sound_task` inside its loop. -/
inductive TaskPc where
  | atRead
  | atWrite
  | atWait
  deriving DecidableEq, Repr

/-- State of the whole system: the world, the locals and position of the
task, the number of external calls `cleanup_module` has made so far (`cpc`)
and the byte its `inb` returned (`tmp`). -/
structure Sys where
  world : World
  loc : Locals
  tpc : TaskPc
  cpc : Nat
  tmp : Nat

/-- One step of the task: the next statement group of its loop. -/
def task_step (s : Sys) : Sys :=
  match s.tpc with
  | TaskPc.atRead =>
      let st := loop_read (s.loc, s.world)
      { s with loc := st.1, world := st.2, tpc := TaskPc.atWrite }
  | TaskPc.atWrite =>
      let st := loop_write (s.loc, s.world)
      { s with loc := st.1, world := st.2, tpc := TaskPc.atWait }
  | TaskPc.atWait =>
      let st := loop_wait (s.loc, s.world)
      { s with loc := st.1, world := st.2, tpc := TaskPc.atRead }

/-- One step of `cleanup_module`: its next external call, in source order. -/
def cleanup_step (s : Sys) : Sys :=
  match s.cpc with
  | 0 => { s with world := rt_task_delete s.world, cpc := 1 }
  | 1 =>
      let r := inb SOUND_PORT s.world
      { s with world := r.2, tmp := r.1, cpc := 2 }
  | _ => { s with world := outb (s.tmp &&& int_not SOUND_MASK) SOUND_PORT s.world, cpc := 3 }

/-- The step relation, as a function: the task steps only while the scheduler
runs it, `cleanup_module` only until it has returned. -/
def step : Actor → Sys → Option Sys
  | Actor.task, s => if s.world.runnable then some (task_step s) else none
  | Actor.cleanup, s => if s.cpc < 3 then some (cleanup_step s) else none

/-- Run a schedule; `none` when it asks a disabled actor to step. -/
def exec : List Actor → Sys → Option Sys
  | [], s => some s
  | a :: rest, s => (step a s).bind (exec rest)

/-- A system state used for concrete evaluations: the task is about to read
the port and `cleanup_module` has not started. -/
def sys0 : Sys :=
  { world := world0, loc := { sound_byte := 0, toggle := 1 }, tpc := TaskPc.atRead,
    cpc := 0, tmp := 0 }

/-- The state `sys0` after the task has read the port and `cleanup_module` has
called `rt_task_delete`. -/
def sys1 : Sys := cleanup_step (task_step sys0)

/-- The state `sys1` after `cleanup_module` has made its two port calls. -/
def sys2 : Sys := cleanup_step (cleanup_step sys1)

/-! ## init_module (lines 65-123) -/

/-- What the scheduler collaborators answer during one run of `init_module`:
the conversion and timer functions, the clock reading, and the status codes of
`rt_task_init` and `rt_task_make_periodic` (`0` is success). -/
structure Sched where
  nano2count : Int → Int
  start_rt_timer : Int → Int
  rt_get_time : Int
  rt_task_init : Int
  rt_task_make_periodic : Int

/-- The body of `init_module`: returns its status and the external calls it
made, in order. The status codes of `rt_task_init` and
`rt_task_make_periodic` are discarded by the source. -/
def init_module (o : Sched) : Int × List Call :=
  let log0 : List Call := [Call.rt_set_periodic_mode]
  let sound_period_count := o.nano2count sound_period_ns
  let log1 := log0 ++ [Call.nano2count sound_period_ns]
  let timer_period_count := o.start_rt_timer sound_period_count
  let log2 := log1 ++ [Call.start_rt_timer sound_period_count]
  let log3 := log2 ++ [Call.printk (to_int sound_period_count) (to_int timer_period_count)]
  let log4 := log3 ++ [Call.rt_task_init TaskEntry.sound_function 0 1024 0 0 0]
  let now := o.rt_get_time
  let log5 := log4 ++ [Call.rt_get_time]
  let log6 := log5 ++
    [Call.rt_task_make_periodic (to_rtime (now + sound_period_count)) sound_period_count]
  (0, log6)

/-- Modelled from the spec: the constant `RT_LOWEST_PRIORITY` of `rtai_sched.h`,
a header that is not part of the sources. The spec calls it the lowest
practical priority; RTAI numbers priorities from `0` (highest) and defines the
lowest as `0x3fffffff`. -/
def RT_LOWEST_PRIORITY : Int := 0x3fffffff

/-- The `rt_task_init` calls of a log. -/
def task_init_calls (l : List Call) : List Call :=
  l.filter fun c => match c with
    | Call.rt_task_init _ _ _ _ _ _ => true
    | _ => false

/-- The `(start_time, period)` arguments of the `rt_task_make_periodic` calls of a log. -/
def make_periodic_calls (l : List Call) : List (Int × Int) :=
  l.filterMap fun c => match c with
    | Call.rt_task_make_periodic t p => some (t, p)
    | _ => none

/-- A scheduler whose timer rounds the requested count down by one and whose
task creation fails with `-22`. -/
def sched0 : Sched :=
  { nano2count := fun _ => 119318
    start_rt_timer := fun _ => 119317
    rt_get_time := 1000
    rt_task_init := -22
    rt_task_make_periodic := 0 }

/-- A scheduler whose timer grants the requested count exactly. -/
def sched1 : Sched :=
  { nano2count := fun _ => 119318
    start_rt_timer := fun p => p
    rt_get_time := 1000
    rt_task_init := 0
    rt_task_make_periodic := 0 }

/-- The byte the task writes when it reads `b` with toggle flag `t`
(the `if (toggle)` statement of lines 43-49). -/
def task_byte (t b : Nat) : Nat :=
  if t ≠ 0 then to_uchar (b ||| SOUND_MASK) else to_uchar (b &&& int_not SOUND_MASK)

/-- The mask bit as left by each of the first `n` loop iterations, in order. -/
def mask_trace (n garbage : Nat) (w : World) : List Bool :=
  (List.range n).map fun i => maskSet (sound_function (i + 1) garbage w).2

/-- What holds of a system state once `cleanup_module` has made its first
`cpc` calls: from the first call on the task is not runnable, the last
entries of the log are the calls of `cleanup_module` with nothing in between,
and after the third call the mask bit is clear. -/
def CleanupInv (s : Sys) : Prop :=
  s.cpc = 0 ∨
  (s.cpc = 1 ∧ s.world.runnable = false ∧
    ∃ pre, s.world.log = pre ++ [Call.rt_task_delete]) ∨
  (s.cpc = 2 ∧ s.world.runnable = false ∧ s.tmp < 256 ∧
    ∃ pre, s.world.log = pre ++ [Call.rt_task_delete, Call.inb SOUND_PORT]) ∨
  (s.cpc = 3 ∧ s.world.runnable = false ∧ maskSet s.world = false ∧
    ∃ pre v, s.world.log =
      pre ++ [Call.rt_task_delete, Call.inb SOUND_PORT, Call.outb v SOUND_PORT])

/-! ## Byte-level facts -/

set_option maxRecDepth 1000000 in
theorem byte_clear : ∀ b, b < 256 →
    to_uchar (b &&& int_not SOUND_MASK) = b &&& 0xFD ∧
    to_uchar (b &&& int_not SOUND_MASK) < 256 ∧
    to_uchar (b &&& int_not SOUND_MASK) &&& 0xFD = b &&& 0xFD ∧
    to_uchar (b &&& int_not SOUND_MASK) &&& SOUND_MASK = 0 := by
  decide

set_option maxRecDepth 1000000 in
theorem byte_set : ∀ b, b < 256 →
    to_uchar (b ||| SOUND_MASK) < 256 ∧
    to_uchar (b ||| SOUND_MASK) &&& 0xFD = b &&& 0xFD ∧
    to_uchar (b ||| SOUND_MASK) &&& SOUND_MASK = 2 := by
  decide

set_option maxRecDepth 1000000 in
theorem byte_clear_noop : ∀ b, b < 256 → b &&& SOUND_MASK = 0 → b &&& 0xFD = b := by
  decide

theorem to_uchar_idem (x : Nat) : to_uchar (to_uchar x) = to_uchar x := by
  unfold to_uchar; omega

theorem task_byte_frame (t b : Nat) (hb : b < 256) :
    task_byte t b < 256 ∧ task_byte t b &&& 0xFD = b &&& 0xFD := by
  unfold task_byte
  split
  · exact ⟨(byte_set b hb).1, (byte_set b hb).2.1⟩
  · exact ⟨(byte_clear b hb).2.1, (byte_clear b hb).2.2.1⟩

/-! ## What one loop iteration and cleanup_module do to the world -/

theorem loop_body_log (loc : Locals) (w : World) :
    (loop_body (loc, w)).2.log = w.log ++
      [Call.inb SOUND_PORT,
       Call.outb (task_byte loc.toggle (w.ports SOUND_PORT % 256)) SOUND_PORT,
       Call.rt_task_wait_period] := by
  simp [loop_body, loop_wait, loop_write, loop_read, inb, outb, rt_task_wait_period,
    task_byte, to_uchar_idem]
  split <;> simp [to_uchar_idem]

theorem loop_body_port (loc : Locals) (w : World) :
    (loop_body (loc, w)).2.ports SOUND_PORT =
      task_byte loc.toggle (w.ports SOUND_PORT % 256) := by
  simp [loop_body, loop_wait, loop_write, loop_read, inb, outb, rt_task_wait_period,
    task_byte, to_uchar_idem]
  split <;> simp [to_uchar_idem]

theorem loop_body_toggle (loc : Locals) (w : World) :
    (loop_body (loc, w)).1.toggle = c_not loc.toggle := by
  simp [loop_body, loop_wait, loop_write, loop_read]

theorem cleanup_module_log (w : World) :
    (cleanup_module w).log = w.log ++
      [Call.rt_task_delete, Call.inb SOUND_PORT,
       Call.outb (to_uchar (w.ports SOUND_PORT % 256 &&& int_not SOUND_MASK)) SOUND_PORT] := by
  simp [cleanup_module, rt_task_delete, inb, outb]

theorem cleanup_module_port (w : World) :
    (cleanup_module w).ports SOUND_PORT =
      to_uchar (w.ports SOUND_PORT % 256 &&& int_not SOUND_MASK) := by
  simp [cleanup_module, rt_task_delete, inb, outb]

theorem cleanup_module_other_ports (w : World) (p : Nat) (hp : p ≠ SOUND_PORT) :
    (cleanup_module w).ports p = w.ports p := by
  simp [cleanup_module, rt_task_delete, inb, outb, hp]

/-! ## The state after k iterations -/

theorem task_byte_mask (t b : Nat) (hb : b < 256) :
    (task_byte t b &&& SOUND_MASK != 0) = decide (t ≠ 0) := by
  unfold task_byte
  by_cases ht : t = 0
  · simp [ht, (byte_clear b hb).2.2.2]
  · simp [ht, (byte_set b hb).2.2]

theorem sound_function_toggle (k garbage : Nat) (w : World) :
    (sound_function k garbage w).1.toggle = k % 2 := by
  induction k with
  | zero => simp [sound_function, sound_function_entry]
  | succ k ih =>
    show (loop_body ((sound_function k garbage w).1, (sound_function k garbage w).2)).1.toggle = _
    rw [loop_body_toggle, ih]
    unfold c_not
    split <;> omega

theorem sound_function_port_succ (k garbage : Nat) (w : World) :
    (sound_function (k + 1) garbage w).2.ports SOUND_PORT =
      task_byte (k % 2) ((sound_function k garbage w).2.ports SOUND_PORT % 256) := by
  show (loop_body ((sound_function k garbage w).1, (sound_function k garbage w).2)).2.ports
    SOUND_PORT = _
  rw [loop_body_port, sound_function_toggle]

theorem sound_function_mask_succ (k garbage : Nat) (w : World) :
    maskSet (sound_function (k + 1) garbage w).2 = decide (k % 2 = 1) := by
  unfold maskSet
  rw [sound_function_port_succ, task_byte_mask _ _ (Nat.mod_lt _ (by decide))]
  by_cases h : k % 2 = 1
  · simp [h]
  · have h0 : k % 2 = 0 := by omega
    simp [h0]

/-! ## Claims about the register -/

/-- C1: for every 8-bit register value `r` and every value of the toggle
flag, one loop iteration of `sound_function` makes exactly the calls
`inb(0x61)`, `outb(v, 0x61)`, `rt_task_wait_period()` and `cleanup_module`
exactly `rt_task_delete`, `inb(0x61)`, `outb(v, 0x61)`, and in both the byte
`v` written to the port agrees with `r` outside the sound mask:
`v & 0xFD = r & 0xFD`. -/
theorem writes_preserve_non_mask_bits (w : World) (loc : Locals) (r : Nat)
    (hr : r < 256) (hw : w.ports SOUND_PORT = r) :
    (∃ v, (loop_body (loc, w)).2.log =
        w.log ++ [Call.inb 0x61, Call.outb v 0x61, Call.rt_task_wait_period] ∧
      (loop_body (loc, w)).2.ports 0x61 = v ∧ v &&& 0xFD = r &&& 0xFD) ∧
    (∃ v, (cleanup_module w).log =
        w.log ++ [Call.rt_task_delete, Call.inb 0x61, Call.outb v 0x61] ∧
      (cleanup_module w).ports 0x61 = v ∧ v &&& 0xFD = r &&& 0xFD) := by
  have hm : w.ports SOUND_PORT % 256 = r := by rw [hw]; exact Nat.mod_eq_of_lt hr
  constructor
  · refine ⟨task_byte loc.toggle r, ?_, ?_, (task_byte_frame _ r hr).2⟩
    · rw [loop_body_log, hm]; rfl
    · have := loop_body_port loc w
      rw [hm] at this
      exact this
  · refine ⟨to_uchar (r &&& int_not SOUND_MASK), ?_, ?_, (byte_clear r hr).2.2.1⟩
    · rw [cleanup_module_log, hm]; rfl
    · have := cleanup_module_port w
      rw [hm] at this
      exact this

/-- Witness of C1: the port reads `0xFF` and the toggle flag is `1`. -/
theorem writes_preserve_non_mask_bits_witness :
    (0xFF < 256 ∧ world0.ports SOUND_PORT = 0xFF) ∧
    (∃ v, (loop_body (({ sound_byte := 0, toggle := 1 } : Locals), world0)).2.log =
        world0.log ++ [Call.inb 0x61, Call.outb v 0x61, Call.rt_task_wait_period] ∧
      (loop_body (({ sound_byte := 0, toggle := 1 } : Locals), world0)).2.ports 0x61 = v ∧
      v &&& 0xFD = 0xFF &&& 0xFD) ∧
    (∃ v, (cleanup_module world0).log =
        world0.log ++ [Call.rt_task_delete, Call.inb 0x61, Call.outb v 0x61] ∧
      (cleanup_module world0).ports 0x61 = v ∧ v &&& 0xFD = 0xFF &&& 0xFD) :=
  ⟨⟨by decide, rfl⟩,
    writes_preserve_non_mask_bits world0 { sound_byte := 0, toggle := 1 } 0xFF (by decide) rfl⟩

/-- C2: for every initial world (so every initial register value), every
uninitialised stack content and every number `k ≥ 0` of completed loop
iterations of `sound_function`, the register left by a following
`cleanup_module` has the sound-mask bit `0x02` clear. -/
theorem cleanup_after_iterations_clears_mask (w : World) (garbage k : Nat) :
    (cleanup_module (sound_function k garbage w).2).ports SOUND_PORT &&& SOUND_MASK = 0 ∧
    maskSet (cleanup_module (sound_function k garbage w).2) = false := by
  have h := (byte_clear ((sound_function k garbage w).2.ports SOUND_PORT % 256)
    (Nat.mod_lt _ (by decide))).2.2.2
  have hp : (cleanup_module (sound_function k garbage w).2).ports SOUND_PORT &&& SOUND_MASK
      = 0 := by
    rw [cleanup_module_port]; exact h
  exact ⟨hp, by simp [maskSet, hp]⟩

/-- C6: `cleanup_module` is idempotent on the hardware: for every register
value `r`, the port space after two calls in succession equals the port space
after one call, and the register holds `r & 0xFD` in both. -/
theorem cleanup_module_idempotent (w : World) (r : Nat)
    (hr : r < 256) (hw : w.ports SOUND_PORT = r) :
    (cleanup_module (cleanup_module w)).ports = (cleanup_module w).ports ∧
    (cleanup_module w).ports SOUND_PORT = r &&& 0xFD ∧
    (cleanup_module (cleanup_module w)).ports SOUND_PORT = r &&& 0xFD := by
  have hm : w.ports SOUND_PORT % 256 = r := by rw [hw]; exact Nat.mod_eq_of_lt hr
  have h1 : (cleanup_module w).ports SOUND_PORT = r &&& 0xFD := by
    rw [cleanup_module_port, hm]; exact (byte_clear r hr).1
  have hlt : r &&& 0xFD < 256 := by
    rw [← (byte_clear r hr).1]; exact (byte_clear r hr).2.1
  have h2 : (cleanup_module (cleanup_module w)).ports SOUND_PORT = r &&& 0xFD := by
    rw [cleanup_module_port, h1, Nat.mod_eq_of_lt hlt, (byte_clear _ hlt).1]
    have := (byte_clear r hr).2.2.1
    rw [(byte_clear r hr).1] at this
    exact this
  refine ⟨?_, h1, h2⟩
  funext p
  by_cases hp : p = SOUND_PORT
  · rw [hp, h1, h2]
  · rw [cleanup_module_other_ports _ p hp, cleanup_module_other_ports _ p hp]

/-- Witness of C6: the port reads `0xFF`. -/
theorem cleanup_module_idempotent_witness :
    (0xFF < 256 ∧ world0.ports SOUND_PORT = 0xFF) ∧
    (cleanup_module (cleanup_module world0)).ports = (cleanup_module world0).ports ∧
    (cleanup_module world0).ports SOUND_PORT = 0xFF &&& 0xFD ∧
    (cleanup_module (cleanup_module world0)).ports SOUND_PORT = 0xFF &&& 0xFD :=
  ⟨⟨by decide, rfl⟩, cleanup_module_idempotent world0 0xFF (by decide) rfl⟩

/-! ## Alternation of the mask bit -/

/-- C4, as amended: for every initial world and every `N ≥ 0`, counting one
register write per loop iteration from 1, the mask bit is clear after write
`2N+1` and set after write `2N+2`; the first three iterations leave the mask
sequence `[clear, set, clear]`. -/
theorem mask_alternates_from_clear (w : World) (garbage N : Nat) :
    maskSet (sound_function (2 * N + 1) garbage w).2 = false ∧
    maskSet (sound_function (2 * N + 2) garbage w).2 = true ∧
    mask_trace 3 garbage w = [false, true, false] := by
  refine ⟨?_, ?_, ?_⟩
  · rw [sound_function_mask_succ]
    have : ¬ (2 * N % 2 = 1) := by omega
    simp [this]
  · rw [sound_function_mask_succ]
    have : (2 * N + 1) % 2 = 1 := by omega
    simp [this]
  · simp [mask_trace, List.range_succ, sound_function_mask_succ]

/-- C4 fails as stated: with the register initially `0x31`, the first toggle call
(`N = 0`, call `2N+1`) leaves the mask bit clear, not set, and the first three
iterations do not produce `[set, clear, set]`. -/
theorem mask_not_set_after_first_toggle :
    ¬ (maskSet (sound_function (2 * 0 + 1) 0 world1).2 = true) ∧
    mask_trace 3 0 world1 ≠ [true, false, true] := by
  decide

/-- C5: for every initial world and every `N ≥ 2`, with the task the only
writer of the register, the mask bit left by iteration `N` is the opposite of
the mask bit left by iteration `N - 1`. -/
theorem consecutive_iterations_opposite (w : World) (garbage N : Nat) (hN : 2 ≤ N) :
    maskSet (sound_function N garbage w).2 =
      !maskSet (sound_function (N - 1) garbage w).2 := by
  obtain ⟨k, rfl⟩ : ∃ k, N = k + 2 := ⟨N - 2, by omega⟩
  show maskSet (sound_function (k + 1 + 1) garbage w).2 =
    !maskSet (sound_function (k + 1) garbage w).2
  rw [sound_function_mask_succ, sound_function_mask_succ]
  by_cases h : k % 2 = 1
  · have h2 : ¬ ((k + 1) % 2 = 1) := by omega
    simp [h, h2]
  · have h2 : (k + 1) % 2 = 1 := by omega
    simp [h, h2]

/-- Witness of C5: iterations 1 and 2 from a port reading `0xFF`. -/
theorem consecutive_iterations_opposite_witness :
    2 ≤ 2 ∧ maskSet (sound_function 2 0 world0).2 =
      !maskSet (sound_function (2 - 1) 0 world0).2 :=
  ⟨by decide, consecutive_iterations_opposite world0 0 2 (by decide)⟩

/-- C10: the task starts Silent. On every entry to `sound_function` the
toggle flag is `0`; for every initial register value `r` the first loop
iteration writes `r & 0xFD` (the register is unchanged when `r` already has
the mask bit clear); and for every `k ≥ 1` the toggle flag after `k`
iterations is `k mod 2` (true exactly when `k mod 2 = 1`) and the mask bit
after iteration `k` is set exactly when `k` is even. -/
theorem task_starts_silent (w : World) (garbage r k : Nat)
    (hr : r < 256) (hw : w.ports SOUND_PORT = r) (hk : 1 ≤ k) :
    (sound_function 0 garbage w).1.toggle = 0 ∧
    (sound_function 1 garbage w).2.log =
      w.log ++ [Call.inb 0x61, Call.outb (r &&& 0xFD) 0x61, Call.rt_task_wait_period] ∧
    (sound_function 1 garbage w).2.ports 0x61 = r &&& 0xFD ∧
    (r &&& SOUND_MASK = 0 → (sound_function 1 garbage w).2.ports 0x61 = r) ∧
    (sound_function k garbage w).1.toggle = k % 2 ∧
    ((sound_function k garbage w).1.toggle ≠ 0 ↔ k % 2 = 1) ∧
    (maskSet (sound_function k garbage w).2 = true ↔ k % 2 = 0) := by
  have hm : w.ports SOUND_PORT % 256 = r := by rw [hw]; exact Nat.mod_eq_of_lt hr
  have hb : task_byte 0 r = r &&& 0xFD := by
    simp [task_byte, (byte_clear r hr).1]
  have hp : (sound_function 1 garbage w).2.ports 0x61 = r &&& 0xFD := by
    have := sound_function_port_succ 0 garbage w
    simp only [sound_function, sound_function_entry, hm] at this
    rw [← hb]
    exact this
  refine ⟨rfl, ?_, hp, ?_, ?_⟩
  · show (loop_body (sound_function_entry garbage w)).2.log = _
    unfold sound_function_entry
    rw [loop_body_log, hm, hb]
    rfl
  · intro h0
    rw [hp, byte_clear_noop r hr h0]
  · obtain ⟨j, rfl⟩ : ∃ j, k = j + 1 := ⟨k - 1, by omega⟩
    refine ⟨sound_function_toggle _ _ _, ?_, ?_⟩
    · rw [sound_function_toggle]; omega
    · rw [sound_function_mask_succ]
      simp only [decide_eq_true_eq]
      omega

/-- Witness of C10: the port reads `0x31`, so the first write is a no-op, and
`k = 3`. -/
theorem task_starts_silent_witness :
    (0x31 < 256 ∧ world1.ports SOUND_PORT = 0x31 ∧ 1 ≤ 3) ∧
    (sound_function 0 7 world1).1.toggle = 0 ∧
    (sound_function 1 7 world1).2.log =
      world1.log ++
        [Call.inb 0x61, Call.outb (0x31 &&& 0xFD) 0x61, Call.rt_task_wait_period] ∧
    (sound_function 1 7 world1).2.ports 0x61 = 0x31 &&& 0xFD ∧
    (0x31 &&& SOUND_MASK = 0 → (sound_function 1 7 world1).2.ports 0x61 = 0x31) ∧
    (sound_function 3 7 world1).1.toggle = 3 % 2 ∧
    ((sound_function 3 7 world1).1.toggle ≠ 0 ↔ 3 % 2 = 1) ∧
    (maskSet (sound_function 3 7 world1).2 = true ↔ 3 % 2 = 0) :=
  ⟨⟨by decide, rfl, by decide⟩,
    task_starts_silent world1 7 0x31 3 (by decide) rfl (by decide)⟩

/-! ## Shutdown ordering -/

theorem cleanupInv_step (a : Actor) (s t : Sys) (hi : CleanupInv s) (hs : step a s = some t) :
    CleanupInv t := by
  cases a with
  | task =>
    simp only [step] at hs
    split at hs
    · rename_i hrun
      rcases hi with h0 | ⟨_, hr, _⟩ | ⟨_, hr, _⟩ | ⟨_, hr, _⟩
      · left
        cases hs
        unfold task_step
        split <;> exact h0
      all_goals (rw [hr] at hrun; cases hrun)
    · cases hs
  | cleanup =>
    simp only [step] at hs
    split at hs
    · cases hs
      rcases hi with h0 | ⟨h1, hr, pre, hl⟩ | ⟨h2, hr, ht, pre, hl⟩ | ⟨h3, _⟩
      · right; left
        have e : cleanup_step s = { s with world := rt_task_delete s.world, cpc := 1 } := by
          simp [cleanup_step, h0]
        rw [e]
        exact ⟨rfl, rfl, s.world.log, rfl⟩
      · right; right; left
        have e : cleanup_step s =
            { s with world := (inb SOUND_PORT s.world).2, tmp := (inb SOUND_PORT s.world).1,
                     cpc := 2 } := by
          simp [cleanup_step, h1]
        rw [e]
        refine ⟨rfl, hr, Nat.mod_lt _ (by decide), pre, ?_⟩
        simp [inb, hl]
      · right; right; right
        have e : cleanup_step s =
            { s with world := outb (s.tmp &&& int_not SOUND_MASK) SOUND_PORT s.world,
                     cpc := 3 } := by
          simp [cleanup_step, h2]
        rw [e]
        refine ⟨rfl, hr, ?_, pre, to_uchar (s.tmp &&& int_not SOUND_MASK), ?_⟩
        · simp [maskSet, outb, (byte_clear s.tmp ht).2.2.2]
        · simp [outb, hl]
      · omega
    · cases hs

theorem cleanupInv_exec (sch : List Actor) (s t : Sys) (hi : CleanupInv s)
    (he : exec sch s = some t) : CleanupInv t := by
  induction sch generalizing s with
  | nil => simp only [exec, Option.some.injEq] at he; exact he ▸ hi
  | cons a rest ih =>
    simp only [exec] at he
    cases hst : step a s with
    | none => rw [hst] at he; cases he
    | some u =>
      rw [hst] at he
      exact ih u (cleanupInv_step a s u hi hst) he

theorem not_runnable_of_started (s : Sys) (hi : CleanupInv s) (hc : 1 ≤ s.cpc) :
    s.world.runnable = false := by
  rcases hi with h0 | ⟨_, hr, _⟩ | ⟨_, hr, _⟩ | ⟨_, hr, _⟩
  · omega
  all_goals exact hr

theorem cpc_mono_step (a : Actor) (s t : Sys) (hs : step a s = some t) : s.cpc ≤ t.cpc := by
  cases a with
  | task =>
    simp only [step] at hs
    split at hs
    · cases hs
      unfold task_step
      split <;> exact Nat.le_refl _
    · cases hs
  | cleanup =>
    simp only [step] at hs
    split at hs
    · rename_i hlt
      cases hs
      unfold cleanup_step
      split
      · simp_all
      · simp_all
      · simp_all; omega
    · cases hs

theorem no_task_step_after_delete (sch : List Actor) (s t : Sys) (hi : CleanupInv s)
    (hc : 1 ≤ s.cpc) (he : exec sch s = some t) : Actor.task ∉ sch := by
  induction sch generalizing s with
  | nil => simp
  | cons a rest ih =>
    simp only [exec] at he
    cases hst : step a s with
    | none => rw [hst] at he; cases he
    | some u =>
      rw [hst] at he
      have hu := ih u (cleanupInv_step a s u hi hst)
        (Nat.le_trans hc (cpc_mono_step a s u hst)) he
      intro hmem
      rcases List.mem_cons.mp hmem with h | h
      · subst h
        simp [step, not_runnable_of_started s hi hc] at hst
      · exact hu h

theorem cpc_mono_exec (sch : List Actor) (s t : Sys) (he : exec sch s = some t) :
    s.cpc ≤ t.cpc := by
  induction sch generalizing s with
  | nil => simp only [exec, Option.some.injEq] at he; rw [he]
  | cons a rest ih =>
    simp only [exec] at he
    cases hst : step a s with
    | none => rw [hst] at he; cases he
    | some u =>
      rw [hst] at he
      exact Nat.le_trans (cpc_mono_step a s u hst) (ih u he)

theorem cleanup_steps_world (s : Sys) (h0 : s.cpc = 0) :
    (cleanup_step (cleanup_step (cleanup_step s))).world = cleanup_module s.world := by
  simp [cleanup_step, h0, cleanup_module]

/-- C3: `cleanup_module` cancels the task before it forces the hardware off.
Its external calls are exactly `rt_task_delete(&sound_task)`, `inb(0x61)`,
`outb(_, 0x61)` in this order, and its three steps in the system are these
calls. In the step relation of the system, started with `cleanup_module` not
yet entered: once `rt_task_delete` has been called no later step is a task
step, and whenever `cleanup_module` has returned the task can no longer step,
the mask bit is clear and the log ends with the three calls of
`cleanup_module` with no call of the task among or after them. -/
theorem cleanup_cancels_before_force_off
    (sch1 sch2 : List Actor) (s0 s1 s2 : Sys)
    (h0 : s0.cpc = 0) (h1 : exec sch1 s0 = some s1) (hc : 1 ≤ s1.cpc)
    (h2 : exec sch2 s1 = some s2) :
    (cleanup_module s0.world).log = s0.world.log ++
      [Call.rt_task_delete, Call.inb 0x61,
       Call.outb (to_uchar (s0.world.ports 0x61 % 256 &&& int_not SOUND_MASK)) 0x61] ∧
    (cleanup_step (cleanup_step (cleanup_step s0))).world = cleanup_module s0.world ∧
    Actor.task ∉ sch2 ∧ step Actor.task s2 = none ∧
    (s2.cpc = 3 → maskSet s2.world = false ∧
      ∃ pre v, s2.world.log = pre ++ [Call.rt_task_delete, Call.inb 0x61, Call.outb v 0x61]) := by
  have i1 : CleanupInv s1 := cleanupInv_exec sch1 s0 s1 (Or.inl h0) h1
  have i2 : CleanupInv s2 := cleanupInv_exec sch2 s1 s2 i1 h2
  have hc2 : 1 ≤ s2.cpc := Nat.le_trans hc (cpc_mono_exec sch2 s1 s2 h2)
  refine ⟨cleanup_module_log s0.world, cleanup_steps_world s0 h0,
    no_task_step_after_delete sch2 s1 s2 i1 hc h2, ?_, ?_⟩
  · simp [step, not_runnable_of_started s2 i2 hc2]
  · intro h3
    rcases i2 with h | ⟨h, _⟩ | ⟨h, _⟩ | ⟨_, _, hm, hl⟩
    · omega
    · omega
    · omega
    · exact ⟨hm, hl⟩

/-- Witness of C3: the task has read the port and is about to write it back
when `cleanup_module` runs; the stale write never happens. -/
theorem cleanup_cancels_before_force_off_witness :
    (sys0.cpc = 0 ∧ exec [Actor.task, Actor.cleanup] sys0 = some sys1 ∧ 1 ≤ sys1.cpc ∧
      exec [Actor.cleanup, Actor.cleanup] sys1 = some sys2 ∧ sys2.cpc = 3) ∧
    (cleanup_module sys0.world).log = sys0.world.log ++
      [Call.rt_task_delete, Call.inb 0x61,
       Call.outb (to_uchar (sys0.world.ports 0x61 % 256 &&& int_not SOUND_MASK)) 0x61] ∧
    (cleanup_step (cleanup_step (cleanup_step sys0))).world = cleanup_module sys0.world ∧
    Actor.task ∉ [Actor.cleanup, Actor.cleanup] ∧ step Actor.task sys2 = none ∧
    (sys2.cpc = 3 → maskSet sys2.world = false ∧
      ∃ pre v, sys2.world.log =
        pre ++ [Call.rt_task_delete, Call.inb 0x61, Call.outb v 0x61]) :=
  ⟨⟨rfl, rfl, by decide, rfl, rfl⟩,
    cleanup_cancels_before_force_off [Actor.task, Actor.cleanup]
      [Actor.cleanup, Actor.cleanup] sys0 sys1 sys2 rfl rfl (by decide) rfl⟩

/-! ## Startup -/

theorem init_module_log (o : Sched) :
    (init_module o).2 =
      [Call.rt_set_periodic_mode,
       Call.nano2count sound_period_ns,
       Call.start_rt_timer (o.nano2count sound_period_ns),
       Call.printk (to_int (o.nano2count sound_period_ns))
         (to_int (o.start_rt_timer (o.nano2count sound_period_ns))),
       Call.rt_task_init TaskEntry.sound_function 0 1024 0 0 0,
       Call.rt_get_time,
       Call.rt_task_make_periodic (to_rtime (o.rt_get_time + o.nano2count sound_period_ns))
         (o.nano2count sound_period_ns)] := by
  simp [init_module]

/-- C7, as amended: for every behaviour of the scheduler collaborators,
`init_module` activates the task exactly once, with recurring period equal to
the requested tick count returned by `nano2count(sound_period_ns)` and start
time equal to the current time plus that requested count (as an `RTIME`); the
count returned by `start_rt_timer` is only passed to `printk`. The activation
uses the negotiated count exactly when the timer granted the request
unchanged. -/
theorem init_module_period_is_requested_count (o : Sched) :
    make_periodic_calls (init_module o).2 =
      [(to_rtime (o.rt_get_time + o.nano2count sound_period_ns),
        o.nano2count sound_period_ns)] ∧
    Call.printk (to_int (o.nano2count sound_period_ns))
      (to_int (o.start_rt_timer (o.nano2count sound_period_ns))) ∈ (init_module o).2 ∧
    (make_periodic_calls (init_module o).2 =
        [(to_rtime (o.rt_get_time + o.start_rt_timer (o.nano2count sound_period_ns)),
          o.start_rt_timer (o.nano2count sound_period_ns))] ↔
      o.start_rt_timer (o.nano2count sound_period_ns) = o.nano2count sound_period_ns) := by
  have hc : make_periodic_calls (init_module o).2 =
      [(to_rtime (o.rt_get_time + o.nano2count sound_period_ns),
        o.nano2count sound_period_ns)] := by
    rw [init_module_log]
    simp [make_periodic_calls]
  refine ⟨hc, ?_, ?_⟩
  · rw [init_module_log]
    simp
  · rw [hc]
    constructor
    · intro h
      have := (Prod.mk.inj (List.cons.inj h).1).2
      exact this.symm
    · intro h
      rw [h]

/-- C7 fails as stated: when `nano2count` returns 119318 and `start_rt_timer`
arms the timer with 119317 counts at time 1000, the task is activated with
start time 120318 and period 119318, not with the negotiated 119317. -/
theorem period_differs_from_negotiated_count :
    sched0.start_rt_timer (sched0.nano2count sound_period_ns) = 119317 ∧
    make_periodic_calls (init_module sched0).2 = [(120318, 119318)] ∧
    make_periodic_calls (init_module sched0).2 ≠
      [(to_rtime (sched0.rt_get_time + sched0.start_rt_timer (sched0.nano2count sound_period_ns)),
        sched0.start_rt_timer (sched0.nano2count sound_period_ns))] := by
  decide

/-- C8, as amended: `init_module` checks the status of no scheduler call. In
every run, also when `rt_task_init` reports failure, it goes on to read the
clock and activate the task with `rt_task_make_periodic` as its last call, and
returns `0`. -/
theorem init_module_ignores_task_init_status (o : Sched) :
    (init_module o).1 = 0 ∧
    make_periodic_calls (init_module o).2 ≠ [] ∧
    ∃ pre t p, (init_module o).2 =
      pre ++ [Call.rt_task_init TaskEntry.sound_function 0 1024 0 0 0,
              Call.rt_get_time, Call.rt_task_make_periodic t p] := by
  refine ⟨rfl, ?_, ?_⟩
  · rw [init_module_log]
    simp [make_periodic_calls]
  · rw [init_module_log]
    exact ⟨[Call.rt_set_periodic_mode,
       Call.nano2count sound_period_ns,
       Call.start_rt_timer (o.nano2count sound_period_ns),
       Call.printk (to_int (o.nano2count sound_period_ns))
         (to_int (o.start_rt_timer (o.nano2count sound_period_ns)))], _, _, rfl⟩

/-- C8 fails as stated: in a run where `rt_task_init` reports `-22`,
`init_module` still returns `0` and still calls `rt_task_make_periodic`. -/
theorem init_module_succeeds_when_task_init_fails :
    sched0.rt_task_init ≠ 0 ∧
    ¬ ((init_module sched0).1 ≠ 0 ∧ make_periodic_calls (init_module sched0).2 = []) ∧
    (init_module sched0).1 = 0 ∧
    make_periodic_calls (init_module sched0).2 = [(120318, 119318)] := by
  decide

/-- C9, as amended: `init_module` creates the task exactly once, with entry
point `sound_function`, initial argument `0`, a stack budget of 1024 bytes,
the literal priority `0`, the floating-point flag `0` (false) and signal
handler `0` (none). -/
theorem init_module_creates_task_once (o : Sched) :
    task_init_calls (init_module o).2 =
      [Call.rt_task_init TaskEntry.sound_function 0 1024 0 0 0] := by
  rw [init_module_log]
  simp [task_init_calls]

/-- C9 fails as stated: the priority passed to `rt_task_init` is `0`, which is
not `RT_LOWEST_PRIORITY`. -/
theorem init_module_priority_not_lowest :
    task_init_calls (init_module sched1).2 ≠
      [Call.rt_task_init TaskEntry.sound_function 0 1024 RT_LOWEST_PRIORITY 0 0] ∧
    task_init_calls (init_module sched1).2 =
      [Call.rt_task_init TaskEntry.sound_function 0 1024 0 0 0] ∧
    (0 : Int) ≠ RT_LOWEST_PRIORITY := by
  decide

end PeriodicTask
